import Mathlib

/-
Shallow embedding of the data-synchronization core of
souvikdinda/bitcoin-explorer-frontend (src/src/App.tsx).

The component keeps seven React state slots (latestBlock, blockDetails,
blockHistory, bitcoinHistory, loading, error, showToast).  All fetch
handlers run on a single-threaded event loop; each network completion
(resolution) runs its handler to completion before the next one, so the
observable behavior is a fold of a step function over the sequence of
resolutions in resolution order.  Numeric payload fields are carried
verbatim and never computed on, so they are embedded as Int.
-/

namespace BitcoinExplorer

/-- The BlockMetrics response shape (interface BlockMetrics, App.tsx lines 8-26). -/
structure BlockMetrics where
  block_height : Int
  block_hash : String
  btc : Int
  value : Int
  value_today : Int
  average_value : Int
  median_value : Int
  transaction_count : Int
  size : Int
  weight : Int
  difficulty : Int
  merkle_root : String
  nonce : Int
  miner : String
  network_hashrate : Int
  total_sent_today : Int
  blockchain_size : Int
deriving Repr, DecidableEq

/-- One formatted price point (interface BitcoinHistory, App.tsx lines 28-31). -/
structure BitcoinHistory where
  date : String
  price : Int
deriving Repr, DecidableEq

/-- Outcome of one awaited axios.get: the resolved payload, or a thrown error
(transport failure or non-2xx).  The error detail is never inspected by the
handlers, only caught, so it carries no data. -/
inductive FetchResult (α : Type) where
  | ok (data : α)
  | err
deriving Repr, DecidableEq

/-- The React state slots of the App component (App.tsx lines 34-40). -/
structure AppState where
  latestBlock : Option BlockMetrics
  blockDetails : Option BlockMetrics
  blockHistory : List Int
  bitcoinHistory : Option (List BitcoinHistory)
  loading : Bool
  error : Option String
deriving Repr, DecidableEq

/-- The useState initializers: null, null, [], null, true, null. -/
def initState : AppState :=
  { latestBlock := none
    blockDetails := none
    blockHistory := []
    bitcoinHistory := none
    loading := true
    error := none }

/-- A network resolution event, as seen by the event loop: which in-flight
request completed, and with what result.  `metricsResolve` is one tick of
fetchBlockMetrics (initial call or a 30s interval tick), `latest15Resolve`
is fetchLatest15Blocks, `historyResolve` is fetchBitcoinHistory carrying the
raw [timestamp, price] pairs of response.data.prices, and `detailResolve` is
fetchBlockDetails for a clicked height. -/
inductive Event where
  | metricsResolve (r : FetchResult BlockMetrics)
  | latest15Resolve (r : FetchResult (List Int))
  | historyResolve (r : FetchResult (List (Int × Int)))
  | detailResolve (height : Int) (r : FetchResult BlockMetrics)
deriving Repr, DecidableEq

/-- The .map in fetchBitcoinHistory (App.tsx lines 74-77): each raw
[timestamp, price] pair becomes a record with the locale-formatted date and
the price.  `toLocaleDateString` is host-environment behavior, so it is a
parameter `fmt`. -/
def formatBitcoinHistory (fmt : Int → String) (prices : List (Int × Int)) :
    List BitcoinHistory :=
  prices.map (fun p => { date := fmt p.1, price := p.2 })

/-- One resolution handler, exactly as the try/catch/finally bodies write the
state slots (App.tsx lines 44-54, 56-64, 66-82, 92-100).  The catch block of
fetchBitcoinHistory only logs to the console and touches no state slot. -/
def step (fmt : Int → String) (s : AppState) : Event → AppState
  | .metricsResolve (.ok m) => { s with latestBlock := some m, loading := false }
  | .metricsResolve .err =>
      { s with error := some "Failed to fetch block metrics.", loading := false }
  | .latest15Resolve (.ok l) => { s with blockHistory := l }
  | .latest15Resolve .err => { s with error := some "Failed to fetch latest blocks." }
  | .historyResolve (.ok prices) =>
      { s with bitcoinHistory := some (formatBitcoinHistory fmt prices) }
  | .historyResolve .err => s
  | .detailResolve _ (.ok m) => { s with blockDetails := some m }
  | .detailResolve _ .err => { s with error := some "Failed to fetch block details." }

/-- The state after a sequence of resolutions, applied in resolution order. -/
def runEvents (fmt : Int → String) (s : AppState) (tr : List Event) : AppState :=
  tr.foldl (step fmt) s

/-- The labels list of chartData (App.tsx line 103). -/
def chartLabels (s : AppState) : List String :=
  match s.bitcoinHistory with
  | some h => h.map (fun d => d.date)
  | none => []

/-- The data list of the chartData dataset (App.tsx line 107). -/
def chartValues (s : AppState) : List Int :=
  match s.bitcoinHistory with
  | some h => h.map (fun d => d.price)
  | none => []

/-- Whether an event is a resolution of the metrics poller. -/
def isMetricsResolve : Event → Bool
  | .metricsResolve _ => true
  | _ => false

/-- Whether an event is the resolution of the one-shot block-list fetch. -/
def isLatest15Resolve : Event → Bool
  | .latest15Resolve _ => true
  | _ => false

/-- What the block-history section renders (App.tsx lines 284-292): clickable
height entries when the list is non-empty, otherwise the
"No blocks available" paragraph. -/
inductive BlockHistoryView where
  | blocks (heights : List Int)
  | noBlocks
deriving Repr, DecidableEq

/-- The conditional at App.tsx line 284: blockHistory.length > 0. -/
def renderBlockHistory (s : AppState) : BlockHistoryView :=
  if s.blockHistory.length > 0 then .blocks s.blockHistory else .noBlocks

/-- JavaScript template-literal interpolation of a possibly-undefined string:
an undefined value is rendered as the text "undefined". -/
def jsTemplate : Option String → String
  | some s => s
  | none => "undefined"

/-- The URL built at App.tsx line 46. -/
def metricsUrl (base : Option String) : String :=
  jsTemplate base ++ "/latest_block_metrics"

/-- The URL built at App.tsx line 58. -/
def latest15Url (base : Option String) : String :=
  jsTemplate base ++ "/latest_15_blocks"

/-- The URL built at App.tsx line 94. -/
def blockDetailUrl (base : Option String) (height : Int) : String :=
  jsTemplate base ++ "/block/" ++ toString height

/-- The external price API URL (App.tsx line 68). -/
def coingeckoUrl : String :=
  "https://api.coingecko.com/api/v3/coins/bitcoin/market_chart"

/-- The requests issued unconditionally by the mount effect (App.tsx lines
84-86): fetchBlockMetrics(), fetchLatest15Blocks(), fetchBitcoinHistory().
No guard inspects API_BASE_URL before any of these calls. -/
def mountRequests (base : Option String) : List String :=
  [metricsUrl base, latest15Url base, coingeckoUrl]

/-- The request issued by each 30-second interval tick (App.tsx line 87):
only fetchBlockMetrics is rescheduled. -/
def intervalRequests (base : Option String) : List String :=
  [metricsUrl base]

/-- The toast slot plus the set of pending, uncancelled setTimeout hide
callbacks, each tagged with its absolute fire time in ms.  copyToClipboard
(App.tsx lines 167-173) never stores the timeout handle, so nothing is ever
cleared. -/
structure ToastState where
  showToast : Bool
  pending : List Nat
deriving Repr, DecidableEq

/-- Before any copy: showToast is false and no timeout is scheduled. -/
def initToast : ToastState := { showToast := false, pending := [] }

/-- Timed events of the toast machine: a copyToClipboard call at time `now`,
or a scheduled hide timeout reaching its fire time. -/
inductive ToastEvent where
  | copy (now : Nat)
  | timeoutFire (t : Nat)
deriving Repr, DecidableEq

/-- copyToClipboard sets showToast true and schedules setTimeout(..., 2000)
without clearing any earlier timeout; a firing timeout callback runs
setShowToast(false) unconditionally. -/
def toastStep (s : ToastState) : ToastEvent → ToastState
  | .copy now => { showToast := true, pending := s.pending ++ [now + 2000] }
  | .timeoutFire t => { showToast := false, pending := s.pending.erase t }

/-- The toast state after a time-ordered sequence of copies and fires. -/
def runToast (tr : List ToastEvent) : ToastState :=
  tr.foldl toastStep initToast

/-- A sample BlockMetrics payload for closed instantiations. -/
def exMetrics : BlockMetrics :=
  { block_height := 860000
    block_hash := "abc"
    btc := 3
    value := 1
    value_today := 1
    average_value := 1
    median_value := 1
    transaction_count := 2000
    size := 1500000
    weight := 4000000
    difficulty := 90
    merkle_root := "mr"
    nonce := 7
    miner := "Foundry"
    network_hashrate := 600
    total_sent_today := 5
    blockchain_size := 600 }

/-- A second, distinct sample BlockMetrics payload. -/
def exMetricsB : BlockMetrics :=
  { exMetrics with block_height := 859999, block_hash := "def" }

/-- A state holding a previously surfaced failure message. -/
def errState : AppState :=
  { initState with error := some "Failed to fetch block metrics." }

/-
Helper lemmas (shared; not tied to any one claim).
-/

/-- Events that are not a block-list resolution never write blockHistory. -/
theorem blockHistory_stable (fmt : Int → String) (s : AppState) (tr : List Event)
    (h : ∀ e ∈ tr, isLatest15Resolve e = false) :
    (runEvents fmt s tr).blockHistory = s.blockHistory := by
  induction tr generalizing s with
  | nil => rfl
  | cons e tr ih =>
    have he : isLatest15Resolve e = false := h e (List.mem_cons_self e tr)
    have htr : ∀ e2 ∈ tr, isLatest15Resolve e2 = false :=
      fun e2 he2 => h e2 (List.mem_cons_of_mem e he2)
    have hs : (step fmt s e).blockHistory = s.blockHistory := by
      cases e with
      | metricsResolve r => cases r <;> rfl
      | latest15Resolve r => simp [isLatest15Resolve] at he
      | historyResolve r => cases r <;> rfl
      | detailResolve hh r => cases r <;> rfl
    show (runEvents fmt (step fmt s e) tr).blockHistory = s.blockHistory
    rw [ih _ htr, hs]

/-- Closed form of the loading flag: it stays at its incoming value until the
first metrics resolution of the trace and is false from then on. -/
theorem loading_closed_form (fmt : Int → String) (s : AppState) (tr : List Event) :
    (runEvents fmt s tr).loading = (s.loading && !tr.any isMetricsResolve) := by
  induction tr generalizing s with
  | nil => simp [runEvents]
  | cons e tr ih =>
    have hs : (step fmt s e).loading = (s.loading && !isMetricsResolve e) := by
      cases e with
      | metricsResolve r => cases r <;> simp [step, isMetricsResolve]
      | latest15Resolve r => cases r <;> simp [step, isMetricsResolve]
      | historyResolve r => cases r <;> simp [step, isMetricsResolve]
      | detailResolve hh r => cases r <;> simp [step, isMetricsResolve]
    show (runEvents fmt (step fmt s e) tr).loading = _
    rw [ih, hs]
    cases hb : s.loading <;> cases hm : isMetricsResolve e <;>
      simp [List.any_cons, hm]

/-
Claim theorems.
-/

/-- Claim C1 is false on the code: copyToClipboard never cancels the earlier
setTimeout, so with copies at t=0 and t=1000 both hide timeouts stay pending
(fire times 2000 and 3000) and the first one fires at t=2000, hiding the
toast 2 seconds after the FIRST call, while the claim predicts it stays
visible until t=3000. -/
theorem copy_restart_counterexample :
    (runToast [.copy 0, .copy 1000]).showToast = true ∧
    (runToast [.copy 0, .copy 1000]).pending = [2000, 3000] ∧
    (runToast [.copy 0, .copy 1000, .timeoutFire 2000]).showToast = false :=
  ⟨rfl, rfl, rfl⟩

/-- Claim C1, amended: a second copy while the toast is Visible does NOT
cancel the previously scheduled hide; both timeouts remain pending, and the
earlier timeout, due strictly before second-call-time + 2s, fires and hides
the toast 2 seconds after the FIRST copy call. -/
theorem copy_timeouts_stack (c1 c2 : Nat) (h1 : c1 < c2) (h2 : c2 < c1 + 2000) :
    (runToast [.copy c1, .copy c2]).showToast = true ∧
    (runToast [.copy c1, .copy c2]).pending = [c1 + 2000, c2 + 2000] ∧
    (runToast [.copy c1, .copy c2, .timeoutFire (c1 + 2000)]).showToast = false ∧
    c1 + 2000 < c2 + 2000 :=
  ⟨rfl, rfl, rfl, by omega⟩

/-- Claim C1, amended, at the concrete inputs of the claim: copies at 0 ms
and 1000 ms. -/
theorem copy_timeouts_stack_witness :
    (runToast [.copy 0, .copy 1000]).showToast = true ∧
    (runToast [.copy 0, .copy 1000]).pending = [0 + 2000, 1000 + 2000] ∧
    (runToast [.copy 0, .copy 1000, .timeoutFire (0 + 2000)]).showToast = false ∧
    0 + 2000 < 1000 + 2000 :=
  copy_timeouts_stack 0 1000 (by decide) (by decide)

/-- Claim C2: whatever resolutions (of any streams, in any order) precede it,
a successful metrics resolution carrying payload m leaves the displayed
latest-block snapshot equal to m immediately after it is processed. -/
theorem metrics_resolution_displays_own_payload (fmt : Int → String) (s0 : AppState)
    (pre : List Event) (m : BlockMetrics) :
    (runEvents fmt s0 (pre ++ [.metricsResolve (.ok m)])).latestBlock = some m := by
  simp [runEvents, List.foldl_append, step]

/-- Claim C3: every detail resolution is applied unconditionally (none is
deduplicated, cancelled or discarded): after B resolves the displayed detail
is B, and when A resolves later the displayed detail becomes A — the last
request to RESOLVE wins, not the last requested. -/
theorem detail_last_resolved_wins (fmt : Int → String) (s0 : AppState)
    (pre : List Event) (hA hB : Int) (mA mB : BlockMetrics) :
    (runEvents fmt s0 (pre ++ [.detailResolve hB (.ok mB)])).blockDetails = some mB ∧
    (runEvents fmt s0
        (pre ++ [.detailResolve hB (.ok mB), .detailResolve hA (.ok mA)])).blockDetails
      = some mA := by
  constructor <;> simp [runEvents, List.foldl_append, step]

/-- Claim C4 is false on the code: the metrics, block-list and detail streams
all write the single shared error slot, so after a block-list failure a
metrics failure OVERWRITES the list stream's message; and a price-history
failure surfaces no message at all (it has no error slot). -/
theorem shared_error_slot_counterexample :
    (runEvents (fun _ => "") initState [.latest15Resolve .err]).error
      = some "Failed to fetch latest blocks." ∧
    (runEvents (fun _ => "") initState [.latest15Resolve .err, .metricsResolve .err]).error
      = some "Failed to fetch block metrics." ∧
    (runEvents (fun _ => "") initState [.historyResolve .err]).error = none :=
  ⟨rfl, rfl, rfl⟩

/-- Claim C4, amended: the metrics, block-list and detail streams share ONE
error slot; each failure overwrites it with that stream's static message,
while a price-history failure writes no message anywhere. -/
theorem shared_error_slot (fmt : Int → String) (s : AppState) (h : Int) :
    (step fmt s (.metricsResolve .err)).error = some "Failed to fetch block metrics." ∧
    (step fmt s (.latest15Resolve .err)).error = some "Failed to fetch latest blocks." ∧
    (step fmt s (.detailResolve h .err)).error = some "Failed to fetch block details." ∧
    (step fmt s (.historyResolve .err)).error = s.error :=
  ⟨rfl, rfl, rfl, rfl⟩

/-- Claim C5 is false on the code: with the backend base URL absent, the mount
effect still issues the metrics request, whose URL interpolates the missing
value as the literal text "undefined". -/
theorem missing_base_url_counterexample :
    metricsUrl none = "undefined/latest_block_metrics" ∧
    metricsUrl none ∈ mountRequests none :=
  ⟨rfl, by simp [mountRequests]⟩

/-- Claim C5, amended: absence of the base URL is not detected at startup; all
three mount requests are issued anyway, the two backend ones with the string
"undefined" interpolated as the base. -/
theorem missing_base_url_requests :
    mountRequests none =
      ["undefined/latest_block_metrics", "undefined/latest_15_blocks",
       "https://api.coingecko.com/api/v3/coins/bitcoin/market_chart"] := rfl

/-- Claim C6: on the sample [[0,100],[3600000,110],[7200000,105]] the chart
transform yields values [100, 110, 105] with index-aligned local-date labels,
and in general it preserves input order and length, mapping each pair to its
price and to the local-date formatting of its timestamp. -/
theorem chart_transform (fmt : Int → String) (s : AppState)
    (prices : List (Int × Int)) :
    chartValues (step fmt s (.historyResolve (.ok [(0, 100), (3600000, 110), (7200000, 105)])))
      = [100, 110, 105] ∧
    chartLabels (step fmt s (.historyResolve (.ok [(0, 100), (3600000, 110), (7200000, 105)])))
      = [fmt 0, fmt 3600000, fmt 7200000] ∧
    (formatBitcoinHistory fmt prices).map (fun d => d.price) = prices.map Prod.snd ∧
    (formatBitcoinHistory fmt prices).map (fun d => d.date)
      = prices.map (fun p => fmt p.1) ∧
    (formatBitcoinHistory fmt prices).length = prices.length := by
  refine ⟨rfl, rfl, ?_, ?_, ?_⟩ <;> simp [formatBitcoinHistory]

/-- Claim C7: a failed price-history fetch only logs; every state slot —
snapshot, list, detail, loading, error (and the whole state) — is exactly
what it was before the failure. -/
theorem price_failure_frame (fmt : Int → String) (s : AppState) :
    (step fmt s (.historyResolve .err)).latestBlock = s.latestBlock ∧
    (step fmt s (.historyResolve .err)).blockHistory = s.blockHistory ∧
    (step fmt s (.historyResolve .err)).blockDetails = s.blockDetails ∧
    (step fmt s (.historyResolve .err)).loading = s.loading ∧
    (step fmt s (.historyResolve .err)).error = s.error ∧
    step fmt s (.historyResolve .err) = s :=
  ⟨rfl, rfl, rfl, rfl, rfl, rfl⟩

/-- Claim C8: when the one-shot block-list fetch fails, its static message is
set at that resolution, the list stays empty through any other resolutions,
the view renders the no-blocks state (hence no clickable height), and the
30-second interval never reissues the block-list request. -/
theorem list_fetch_failure (fmt : Int → String) (pre post : List Event)
    (hpre : ∀ e ∈ pre, isLatest15Resolve e = false)
    (hpost : ∀ e ∈ post, isLatest15Resolve e = false) :
    (runEvents fmt initState (pre ++ [.latest15Resolve .err])).error
      = some "Failed to fetch latest blocks." ∧
    (runEvents fmt initState (pre ++ [.latest15Resolve .err] ++ post)).blockHistory = [] ∧
    renderBlockHistory (runEvents fmt initState (pre ++ [.latest15Resolve .err] ++ post))
      = .noBlocks ∧
    ∀ base, latest15Url base ∉ intervalRequests base := by
  have hbh : (runEvents fmt initState (pre ++ [.latest15Resolve .err] ++ post)).blockHistory
      = [] := by
    rw [runEvents, List.foldl_append, List.foldl_append]
    show (runEvents fmt
      (step fmt (runEvents fmt initState pre) (.latest15Resolve .err)) post).blockHistory = []
    rw [blockHistory_stable fmt _ post hpost]
    show (runEvents fmt initState pre).blockHistory = []
    rw [blockHistory_stable fmt _ pre hpre]
    rfl
  refine ⟨?_, hbh, ?_, ?_⟩
  · rw [runEvents, List.foldl_append]
    rfl
  · rw [renderBlockHistory, hbh]
    rfl
  · intro base hmem
    have hne : latest15Url base = metricsUrl base := by
      simpa [intervalRequests] using hmem
    have hlen := congrArg String.length hne
    simp only [latest15Url, metricsUrl, String.length_append] at hlen
    have h17 : ("/latest_15_blocks" : String).length = 17 := rfl
    have h21 : ("/latest_block_metrics" : String).length = 21 := rfl
    rw [h17, h21] at hlen
    omega

/-- Claim C8 at concrete inputs: empty surrounding traces. -/
theorem list_fetch_failure_witness :
    (runEvents (fun _ => "") initState ([] ++ [.latest15Resolve .err])).error
      = some "Failed to fetch latest blocks." ∧
    (runEvents (fun _ => "") initState ([] ++ [.latest15Resolve .err] ++ [])).blockHistory
      = [] ∧
    renderBlockHistory (runEvents (fun _ => "") initState ([] ++ [.latest15Resolve .err] ++ []))
      = .noBlocks ∧
    ∀ base, latest15Url base ∉ intervalRequests base :=
  list_fetch_failure (fun _ => "") [] [] (by simp) (by simp)

/-- Claim C9: loading starts true, and after any trace of resolutions it is
true exactly when no metrics resolution (success or failure) has yet been
processed — it turns false at the first metrics resolution and nothing ever
sets it true again. -/
theorem loading_only_before_first_metrics (fmt : Int → String) (tr : List Event) :
    initState.loading = true ∧
    (runEvents fmt initState tr).loading = !tr.any isMetricsResolve := by
  refine ⟨rfl, ?_⟩
  rw [loading_closed_form]
  rfl

/-- Claim C10: every success path (metrics, list, price history, detail)
leaves the error slot untouched, and no event whatsoever resets a non-null
error back to null — a stale failure message persists across later
successes. -/
theorem error_never_cleared (fmt : Int → String) (s : AppState) (e : Event)
    (m : BlockMetrics) (l : List Int) (pr : List (Int × Int)) (h : Int) :
    (step fmt s (.metricsResolve (.ok m))).error = s.error ∧
    (step fmt s (.latest15Resolve (.ok l))).error = s.error ∧
    (step fmt s (.historyResolve (.ok pr))).error = s.error ∧
    (step fmt s (.detailResolve h (.ok m))).error = s.error ∧
    (s.error ≠ none → (step fmt s e).error ≠ none) := by
  refine ⟨rfl, rfl, rfl, rfl, ?_⟩
  intro hne
  cases e with
  | metricsResolve r => cases r with
    | ok d => exact hne
    | err => exact fun hc => Option.noConfusion hc
  | latest15Resolve r => cases r with
    | ok d => exact hne
    | err => exact fun hc => Option.noConfusion hc
  | historyResolve r => cases r with
    | ok d => exact hne
    | err => exact hne
  | detailResolve hh r => cases r with
    | ok d => exact hne
    | err => exact fun hc => Option.noConfusion hc

/-- Claim C10 at a concrete state already holding a failure message: a later
success leaves the message in place and no event clears it. -/
theorem error_never_cleared_witness :
    errState.error ≠ none ∧
    (step (fun _ => "") errState (.latest15Resolve (.ok [860000]))).error = errState.error ∧
    (step (fun _ => "") errState (.metricsResolve (.ok exMetrics))).error ≠ none :=
  ⟨fun hc => Option.noConfusion hc,
   (error_never_cleared (fun _ => "") errState (.metricsResolve (.ok exMetrics))
      exMetrics [860000] [] 0).2.1,
   (error_never_cleared (fun _ => "") errState (.metricsResolve (.ok exMetrics))
      exMetrics [860000] [] 0).2.2.2.2 (fun hc => Option.noConfusion hc)⟩

end BitcoinExplorer
